import Mathlib

/-!
# Verification of the habitat task state machine (rl_habitat/habitat_tasks.py)

Shallow embedding of the episodic task state machine for the two navigation
task variants (`PointNavTask` and `ObjectNavTask`) together with the shared
`HabitatTask` helpers.  Simulator feedback (metric readings, action-success
flag, episode-over flag, agent pose) is passed into each step explicitly, as
the simulator is an external collaborator.  Python floats are modelled by
`FVal`: exact rationals extended with NaN and the two infinities, with the
Python comparison/`min` semantics made explicit; numeric arithmetic is exact
(rationals), the idealisation under which the spec's exact reward values are
stated.  A Python exception (`TypeError` from `min(None, x)`, `IndexError`
from a bad action index) is modelled by an `Option.none` result together with
the partially mutated state, matching the field mutations that have already
happened when the exception propagates.
-/

/-- Model of a Python float value: NaN, the two infinities, or a finite value
(modelled as an exact rational). -/
inductive FVal where
  | nan : FVal
  | pinf : FVal
  | ninf : FVal
  | val : ℚ → FVal
deriving DecidableEq

/-- Python `<` on floats: any comparison involving NaN is false; the
infinities compare as expected. -/
def pyLt : FVal → FVal → Bool
  | FVal.nan, _ => false
  | _, FVal.nan => false
  | FVal.ninf, FVal.ninf => false
  | FVal.ninf, _ => true
  | _, FVal.ninf => false
  | FVal.pinf, _ => false
  | FVal.val _, FVal.pinf => true
  | FVal.val a, FVal.val b => decide (a < b)

/-- Python `<=` on floats: false whenever NaN is involved. -/
def pyLe : FVal → FVal → Bool
  | FVal.nan, _ => false
  | _, FVal.nan => false
  | a, b => !(pyLt b a)

/-- Python `min(a, b)`: returns `b` if `b < a` else `a`; hence
`min(nan, x) = nan` and `min(x, nan) = x`. -/
def pymin (a b : FVal) : FVal := if pyLt b a then b else a

/-- Negation of a Python float. -/
def pyNeg : FVal → FVal
  | FVal.nan => FVal.nan
  | FVal.pinf => FVal.ninf
  | FVal.ninf => FVal.pinf
  | FVal.val a => FVal.val (-a)

/-- Addition of Python floats (exact on finite values): NaN propagates,
`inf + (-inf)` is NaN. -/
def pyAdd : FVal → FVal → FVal
  | FVal.nan, _ => FVal.nan
  | _, FVal.nan => FVal.nan
  | FVal.pinf, FVal.ninf => FVal.nan
  | FVal.ninf, FVal.pinf => FVal.nan
  | FVal.pinf, _ => FVal.pinf
  | _, FVal.pinf => FVal.pinf
  | FVal.ninf, _ => FVal.ninf
  | _, FVal.ninf => FVal.ninf
  | FVal.val a, FVal.val b => FVal.val (a + b)

/-- Subtraction of Python floats. -/
def pySub (a b : FVal) : FVal := pyAdd a (pyNeg b)

/-- `np.sum` over the reward log: left fold of addition starting at `0.0`. -/
def pySum (l : List FVal) : FVal := l.foldl pyAdd (FVal.val 0)

/-- A metric reading, `get_metrics()[...]`: either Python `None` or a float. -/
abbrev Reading := Option FVal

/-- The invalid-value test used by the code:
`x is None or x in [float(-inf), float(inf)] or np.isnan(x)`. -/
def invalidReading : Reading → Bool
  | Option.none => true
  | some FVal.nan => true
  | some FVal.pinf => true
  | some FVal.ninf => true
  | some (FVal.val _) => false

/-- The distance guard: an invalid reading is replaced by the fallback value
(the previous `last_geodesic_distance`, or `0.0` at construction). -/
def guardDistance (r : Reading) (fallback : FVal) : FVal :=
  match r with
  | Option.none => fallback
  | some v => if invalidReading (some v) then fallback else v

/-- Python truthiness `bool(x)` of a metric reading: `None` and `0.0` are
falsy; NaN and the infinities are truthy. -/
def pyTruthy : Reading → Bool
  | Option.none => false
  | some FVal.nan => true
  | some FVal.pinf => true
  | some FVal.ninf => true
  | some (FVal.val q) => !(q = 0)

/-- The discrete actions named in `habitat_constants`. -/
inductive HabAction where
  | MOVE_AHEAD : HabAction
  | ROTATE_LEFT : HabAction
  | ROTATE_RIGHT : HabAction
  | END : HabAction
  | LOOK_UP : HabAction
  | LOOK_DOWN : HabAction
deriving DecidableEq

/-- `PointNavTask._actions = (MOVE_AHEAD, ROTATE_LEFT, ROTATE_RIGHT, END)`. -/
def pointnavActions : List HabAction :=
  [HabAction.MOVE_AHEAD, HabAction.ROTATE_LEFT, HabAction.ROTATE_RIGHT,
   HabAction.END]

/-- `ObjectNavTask._actions`, adding the camera-tilt actions. -/
def objectnavActions : List HabAction :=
  [HabAction.MOVE_AHEAD, HabAction.ROTATE_LEFT, HabAction.ROTATE_RIGHT,
   HabAction.END, HabAction.LOOK_UP, HabAction.LOOK_DOWN]

/-- The `info` key `"last_action_success"` used by both variants. -/
def lastActionSuccessKey : String := "last_action_success"

/-- The `info` key `"action"` that `HabitatTask._step` would add. -/
def actionKey : String := "action"

/-- Simulator feedback consumed during one `step` call of `PointNavTask`:
the `distance_to_goal` and `spl` metric readings, the environment's
last-action-success flag, and the episode-over flag. -/
structure SimFeedback where
  distance_to_goal : Reading
  spl : Reading
  env_last_action_success : Bool
  episode_over : Bool
deriving DecidableEq

/-- The step result `{observation, reward, done, info}`; the observation is
opaque sensor output (out of scope) and is omitted.  `info` is the literal
association list built by the variant's `_step`. -/
structure RLStepResult where
  reward : FVal
  done : Bool
  info : List (String × Option Bool)
deriving DecidableEq

/-- Modelled from the spec: the base `Task` class (only its subclasses are in
src/) maintains the step counter, and spec 4.3 step 6 defines `done` as true
iff `took_end_action` is true, the step count reaches the configured maximum,
or the simulator reports the episode over (the last disjunct is what
`reached_terminal_state` returns in src).  The counter is incremented once
per completed step, before the `done` flag of the step result is computed. -/
def isDone (took_end : Bool) (steps max_steps : Nat) (episode_over : Bool) :
    Bool :=
  took_end || decide (max_steps ≤ steps) || episode_over

/-- Episode state of `PointNavTask` (fields named as in the source; the
`num_steps_taken` counter and `max_steps` bound live in the external base
`Task` and are modelled from the spec). -/
structure PointNavState where
  _took_end_action : Bool
  _success : Bool
  last_action_success : Option Bool
  last_geodesic_distance : FVal
  _rewards : List FVal
  num_steps_taken : Nat
  max_steps : Nat
deriving DecidableEq

/-- `PointNavTask.__init__`: the initial `distance_to_goal` reading is
guarded, with `0.0` replacing an invalid value. -/
def PointNavTask.init (max_steps : Nat) (initialDistance : Reading) :
    PointNavState :=
  { _took_end_action := false
    _success := false
    last_action_success := Option.none
    last_geodesic_distance := guardDistance initialDistance (FVal.val 0)
    _rewards := []
    num_steps_taken := 0
    max_steps := max_steps }

/-- The bonus-free part of the reward common to both `judge` methods:
`-0.01` plus the previous stored distance minus the guarded new reading. -/
def shapedReward (last : FVal) (distReading : Reading) : FVal :=
  pyAdd (FVal.val (-(1 : ℚ)/100)) (pySub last (guardDistance distReading last))

/-- `PointNavTask.judge`: step cost `-0.01`, plus the guarded distance delta,
plus the terminal bonus (`+10.0` if `_success` else `+0.0`) whenever
`_took_end_action` is set; the reward is appended to the log and the guarded
reading stored. -/
def PointNavTask.judge (s : PointNavState) (distReading : Reading) :
    FVal × PointNavState :=
  let new := guardDistance distReading s.last_geodesic_distance
  let r1 := shapedReward s.last_geodesic_distance distReading
  let r2 :=
    if s._took_end_action then
      if s._success then pyAdd r1 (FVal.val 10) else pyAdd r1 (FVal.val 0)
    else r1
  (r2, { s with last_geodesic_distance := new, _rewards := s._rewards ++ [r2] })

/-- `PointNavTask._step` (with the base class's step counting modelled from
the spec): resolve the action index, dispatch to the simulator, set the
end/success flags or copy the environment's success flag, compute the reward,
and build the step result.  A bad index raises `IndexError` before any
mutation: result `none`, state unchanged. -/
def PointNavTask.step (s : PointNavState) (action : Nat) (fb : SimFeedback) :
    Option RLStepResult × PointNavState :=
  match pointnavActions.get? action with
  | Option.none => (Option.none, s)
  | some a =>
    let s1 :=
      if a = HabAction.END then
        { s with _took_end_action := true
                 _success := pyTruthy fb.spl
                 last_action_success := some (pyTruthy fb.spl) }
      else
        { s with last_action_success := some fb.env_last_action_success }
    let rs := PointNavTask.judge s1 fb.distance_to_goal
    let s2 := { rs.2 with num_steps_taken := rs.2.num_steps_taken + 1 }
    (some { reward := rs.1
            done := isDone s2._took_end_action s2.num_steps_taken s2.max_steps
              fb.episode_over
            info := [(lastActionSuccessKey, s2.last_action_success)] },
     s2)

/-- Run a sequence of steps (action index together with that step's simulator
feedback), threading the state. -/
def PointNavTask.runSteps (s : PointNavState) :
    List (Nat × SimFeedback) → PointNavState
  | [] => s
  | p :: rest => PointNavTask.runSteps (PointNavTask.step s p.1 p.2).2 rest

/-- The metric summary returned for a finished `PointNavTask` episode. -/
structure PointNavMetrics where
  success : Bool
  ep_length : Nat
  total_reward : FVal
  spl : FVal
deriving DecidableEq

/-- `PointNavTask.metrics`: empty result (and no mutation) while not done;
once done, a summary with the summed reward log, which is then cleared.  The
null-SPL reading defaults to `0.0`. -/
def PointNavTask.metrics (s : PointNavState) (fb : SimFeedback) :
    Option PointNavMetrics × PointNavState :=
  if !(isDone s._took_end_action s.num_steps_taken s.max_steps
      fb.episode_over) then
    (Option.none, s)
  else
    (some { success := s._success
            ep_length := s.num_steps_taken
            total_reward := pySum s._rewards
            spl := match fb.spl with
              | Option.none => FVal.val 0
              | some v => v },
     { s with _rewards := [] })

/-- `PointNavTask._is_goal_in_range`: truthiness of the simulator's SPL
metric. -/
def PointNavTask.is_goal_in_range (spl : Reading) : Bool := pyTruthy spl

/-- `PointNavTask.query_expert`: when the goal is in range, the index of
`END` with validity `true`, without consulting the follower; otherwise the
follower's suggested action (possibly `None`) with validity
`action is not None`. -/
def PointNavTask.query_expert (spl : Reading) (followerAction : Option Nat) :
    Option Nat × Bool :=
  if PointNavTask.is_goal_in_range spl then
    (some (pointnavActions.indexOf HabAction.END), true)
  else
    (followerAction, followerAction.isSome)

/-- The agent pose 4-tuple `agent_position_and_rotation`:
x, y, z/height, heading-degrees. -/
structure Pose where
  x : ℚ
  y : ℚ
  z : ℚ
  rot : ℚ
deriving DecidableEq

/-- The entry appended to `_positions`: x, y, and `path_to_rot_degrees`
(components 0, 1 and 3 of the pose). -/
def posLog (p : Pose) : ℚ × ℚ × ℚ := (p.x, p.y, p.rot)

/-- Simulator feedback consumed during one `step` call of `ObjectNavTask`:
as for the point variant, plus the agent pose read before and after the
simulator step. -/
structure ObjSimFeedback where
  distance_to_goal : Reading
  spl : Reading
  env_last_action_success : Bool
  episode_over : Bool
  pose_before : Pose
  pose_after : Pose
deriving DecidableEq

/-- Episode state of `ObjectNavTask`.  `_actions_taken` and `_positions` are
the append-only trajectory logs; `_min_distance_to_goal` is the running
minimum taken from the raw (pre-guard) readings. -/
structure ObjectNavState where
  _took_end_action : Bool
  _success : Bool
  last_action_success : Option Bool
  last_geodesic_distance : FVal
  _min_distance_to_goal : FVal
  _num_invalid_actions : Nat
  _actions_taken : List HabAction
  _positions : List (ℚ × ℚ × ℚ)
  _rewards : List FVal
  num_steps_taken : Nat
  max_steps : Nat
deriving DecidableEq

/-- `ObjectNavTask.__init__`: the guarded initial distance also initialises
`_min_distance_to_goal`. -/
def ObjectNavTask.init (max_steps : Nat) (initialDistance : Reading) :
    ObjectNavState :=
  let d := guardDistance initialDistance (FVal.val 0)
  { _took_end_action := false
    _success := false
    last_action_success := Option.none
    last_geodesic_distance := d
    _min_distance_to_goal := d
    _num_invalid_actions := 0
    _actions_taken := []
    _positions := []
    _rewards := []
    num_steps_taken := 0
    max_steps := max_steps }

/-- `ObjectNavTask.judge`: the running minimum is updated from the raw
reading *before* the invalid-value guard (Python `min` keeps the first
argument on a NaN comparison failure); a `None` reading makes
`min(None, _)` raise `TypeError` before any field is assigned, modelled by
an `Option.none` reward with the state unchanged. -/
def ObjectNavTask.judge (s : ObjectNavState) (distReading : Reading) :
    Option FVal × ObjectNavState :=
  match distReading with
  | Option.none => (Option.none, s)
  | some raw =>
    let min' := pymin raw s._min_distance_to_goal
    let new := guardDistance (some raw) s.last_geodesic_distance
    let r1 := shapedReward s.last_geodesic_distance (some raw)
    let r2 :=
      if s._took_end_action then
        if s._success then pyAdd r1 (FVal.val 10) else pyAdd r1 (FVal.val 0)
      else r1
    (some r2,
     { s with _min_distance_to_goal := min'
              _rewards := s._rewards ++ [r2]
              last_geodesic_distance := new })

/-- The invalid-action counting of `ObjectNavTask._step` lines 279-280:
increment `_num_invalid_actions` when the pose snapshot is unchanged
(`np.all(old_pos == new_pos)`). -/
def countInvalid (samePose : Bool) (s : ObjectNavState) : ObjectNavState :=
  if samePose then
    { s with _num_invalid_actions := s._num_invalid_actions + 1 }
  else s

/-- `ObjectNavTask._step` (base-class step counting modelled from the spec):
log the pre-step pose, resolve and log the action, dispatch, set the
end/success flags or copy the environment's flag, compute the reward, and
count the step as invalid when the pose is unchanged.  A bad action index
raises after the pose log; a `TypeError` in `judge` propagates with the
mutations made so far. -/
def ObjectNavTask.step (s : ObjectNavState) (action : Nat)
    (fb : ObjSimFeedback) : Option RLStepResult × ObjectNavState :=
  let s0 := { s with _positions := s._positions ++ [posLog fb.pose_before] }
  match objectnavActions.get? action with
  | Option.none => (Option.none, s0)
  | some a =>
    let s1 := { s0 with _actions_taken := s0._actions_taken ++ [a] }
    let s2 :=
      if a = HabAction.END then
        { s1 with _took_end_action := true
                  _success := pyTruthy fb.spl
                  last_action_success := some (pyTruthy fb.spl) }
      else
        { s1 with last_action_success := some fb.env_last_action_success }
    match ObjectNavTask.judge s2 fb.distance_to_goal with
    | (Option.none, s3) => (Option.none, s3)
    | (some r, s3) =>
      let s4 := countInvalid (decide (fb.pose_after = fb.pose_before)) s3
      let s5 := { s4 with num_steps_taken := s4.num_steps_taken + 1 }
      (some { reward := r
              done := isDone s5._took_end_action s5.num_steps_taken
                s5.max_steps fb.episode_over
              info := [(lastActionSuccessKey, s5.last_action_success)] },
       s5)

/-- Run a sequence of object-nav steps, threading the state. -/
def ObjectNavTask.runSteps (s : ObjectNavState) :
    List (Nat × ObjSimFeedback) → ObjectNavState
  | [] => s
  | p :: rest => ObjectNavTask.runSteps (ObjectNavTask.step s p.1 p.2).2 rest

/-- The metric summary of a finished `ObjectNavTask` episode (`task_info` is
an external dictionary and is omitted). -/
structure ObjectNavMetrics where
  success : Bool
  ep_length : Nat
  total_reward : FVal
  spl : FVal
  min_distance_to_target : FVal
  num_invalid_actions : Nat
deriving DecidableEq

/-- `ObjectNavTask.metrics`: as for the point variant (the trajectory dump
into `task_info` mutates only the external dictionary and does not touch the
reward log). -/
def ObjectNavTask.metrics (s : ObjectNavState) (fb : ObjSimFeedback) :
    Option ObjectNavMetrics × ObjectNavState :=
  if !(isDone s._took_end_action s.num_steps_taken s.max_steps
      fb.episode_over) then
    (Option.none, s)
  else
    (some { success := s._success
            ep_length := s.num_steps_taken
            total_reward := pySum s._rewards
            spl := match fb.spl with
              | Option.none => FVal.val 0
              | some v => v
            min_distance_to_target := s._min_distance_to_goal
            num_invalid_actions := s._num_invalid_actions },
     { s with _rewards := [] })

/-- `ObjectNavTask.query_expert`: identical policy to the point variant, over
the object-nav action set. -/
def ObjectNavTask.query_expert (spl : Reading) (followerAction : Option Nat) :
    Option Nat × Bool :=
  if pyTruthy spl then
    (some (objectnavActions.indexOf HabAction.END), true)
  else
    (followerAction, followerAction.isSome)

/-- A rendered frame mapping: the simulator's `current_frame` with its `rgb`
and `depth` images (payloads opaque). -/
structure Frame (α : Type) where
  rgb : α
  depth : α

/-- The error raised by a `render` call. -/
inductive RenderErr where
  | notImplementedError : RenderErr
  | assertionError : RenderErr
deriving DecidableEq

/-- `HabitatTask.render`: dispatch on the mode, raising
`NotImplementedError` for an unknown mode. -/
def HabitatTask.render {α : Type} (frame : Frame α) (mode : String) :
    Except RenderErr α :=
  if mode = "rgb" then Except.ok frame.rgb
  else if mode = "depth" then Except.ok frame.depth
  else Except.error RenderErr.notImplementedError

/-- `PointNavTask.render`: assert the mode is `rgb` or `depth`
(`AssertionError` otherwise), then return the **rgb** frame unconditionally. -/
def PointNavTask.render {α : Type} (frame : Frame α) (mode : String) :
    Except RenderErr α :=
  if mode = "rgb" || mode = "depth" then Except.ok frame.rgb
  else Except.error RenderErr.assertionError

/-- `ObjectNavTask.render`: same body as the point variant. -/
def ObjectNavTask.render {α : Type} (frame : Frame α) (mode : String) :
    Except RenderErr α :=
  if mode = "rgb" || mode = "depth" then Except.ok frame.rgb
  else Except.error RenderErr.assertionError

/-- Python slice `s[-a:-b]` on a character list (negative indices clamp to
the start of the string). -/
def pySliceNeg (s : List Char) (a b : Nat) : List Char :=
  (s.drop (s.length - min s.length a)).take
    ((s.length - min s.length b) - (s.length - min s.length a))

/-- `HabitatTask.__init__`'s episode identifier:
`ep.scene_id[-15:-4] + "_" + ep.episode_id`. -/
def HabitatTask.episodeId (scene_id episode_id : List Char) : List Char :=
  pySliceNeg scene_id 15 4 ++ [Char.ofNat 95] ++ episode_id

/-- Modelled from the spec: "persisted episode identifiers are formed by
truncating a scene-path string to its filename stem" — the filename stem is
the part of the path after the final path separator and before the final
dot. -/
def specFilenameStem (s : List Char) : List Char :=
  let base := (s.reverse.takeWhile (fun c => !(c = Char.ofNat 47))).reverse
  let r := base.reverse
  if r.any (fun c => c = Char.ofNat 46) then
    ((r.dropWhile (fun c => !(c = Char.ofNat 46))).drop 1).reverse
  else base

/-- Modelled from the spec: the episode identifier the spec sentence
describes — filename stem, separator, episode id. -/
def specEpisodeId (scene_id episode_id : List Char) : List Char :=
  specFilenameStem scene_id ++ [Char.ofNat 95] ++ episode_id

/-! ## Helper lemmas -/

lemma pyAdd_val_zero (x : FVal) : pyAdd x (FVal.val 0) = x := by
  cases x <;> simp [pyAdd]

@[simp] lemma countInvalid_took_end (b : Bool) (s : ObjectNavState) :
    (countInvalid b s)._took_end_action = s._took_end_action := by
  unfold countInvalid; split <;> rfl

@[simp] lemma countInvalid_success (b : Bool) (s : ObjectNavState) :
    (countInvalid b s)._success = s._success := by
  unfold countInvalid; split <;> rfl

@[simp] lemma countInvalid_las (b : Bool) (s : ObjectNavState) :
    (countInvalid b s).last_action_success = s.last_action_success := by
  unfold countInvalid; split <;> rfl

@[simp] lemma countInvalid_lgd (b : Bool) (s : ObjectNavState) :
    (countInvalid b s).last_geodesic_distance = s.last_geodesic_distance := by
  unfold countInvalid; split <;> rfl

@[simp] lemma countInvalid_min (b : Bool) (s : ObjectNavState) :
    (countInvalid b s)._min_distance_to_goal = s._min_distance_to_goal := by
  unfold countInvalid; split <;> rfl

@[simp] lemma countInvalid_rewards (b : Bool) (s : ObjectNavState) :
    (countInvalid b s)._rewards = s._rewards := by
  unfold countInvalid; split <;> rfl

@[simp] lemma countInvalid_steps (b : Bool) (s : ObjectNavState) :
    (countInvalid b s).num_steps_taken = s.num_steps_taken := by
  unfold countInvalid; split <;> rfl

@[simp] lemma countInvalid_max (b : Bool) (s : ObjectNavState) :
    (countInvalid b s).max_steps = s.max_steps := by
  unfold countInvalid; split <;> rfl

/-! ## Claims -/

/-- C1: In both task variants, a step with the index of the `end` action
(index 3 in both action sets) sets `took_end_action` to `true`, sets
`success` to the goal-in-range test evaluated at that moment, sets
`last_action_success` to `success`, and the returned reward equals the
bonus-free shaped reward plus `+10.0` exactly when `success` is true (no
bonus otherwise); moreover once `took_end_action` is true, no subsequent
step of either variant ever resets it. -/
theorem habitat_c1_end_action :
    (∀ (s : PointNavState) (fb : SimFeedback),
      ((PointNavTask.step s 3 fb).2)._took_end_action = true ∧
      ((PointNavTask.step s 3 fb).2)._success = pyTruthy fb.spl ∧
      ((PointNavTask.step s 3 fb).2).last_action_success
        = some (pyTruthy fb.spl) ∧
      ((PointNavTask.step s 3 fb).1).map RLStepResult.reward
        = some (if pyTruthy fb.spl then
            pyAdd (shapedReward s.last_geodesic_distance fb.distance_to_goal)
              (FVal.val 10)
          else shapedReward s.last_geodesic_distance fb.distance_to_goal)) ∧
    (∀ (s : ObjectNavState) (fb : ObjSimFeedback),
      ((ObjectNavTask.step s 3 fb).2)._took_end_action = true ∧
      ((ObjectNavTask.step s 3 fb).2)._success = pyTruthy fb.spl ∧
      ((ObjectNavTask.step s 3 fb).2).last_action_success
        = some (pyTruthy fb.spl) ∧
      (∀ r, (ObjectNavTask.step s 3 fb).1 = some r →
        r.reward
          = if pyTruthy fb.spl then
              pyAdd
                (shapedReward s.last_geodesic_distance fb.distance_to_goal)
                (FVal.val 10)
            else shapedReward s.last_geodesic_distance fb.distance_to_goal)) ∧
    (∀ (s : PointNavState) (i : Nat) (fb : SimFeedback),
      s._took_end_action = true →
      ((PointNavTask.step s i fb).2)._took_end_action = true) ∧
    (∀ (s : ObjectNavState) (i : Nat) (fb : ObjSimFeedback),
      s._took_end_action = true →
      ((ObjectNavTask.step s i fb).2)._took_end_action = true) := by
  refine ⟨?_, ?_, ?_, ?_⟩
  · intro s fb
    refine ⟨rfl, rfl, rfl, ?_⟩
    cases h : pyTruthy fb.spl <;>
      simp [PointNavTask.step, PointNavTask.judge, pointnavActions, h,
        pyAdd_val_zero]
  · intro s fb
    rcases fb with ⟨d, spl, els, eo, pb, pa⟩
    cases d with
    | none =>
      refine ⟨rfl, rfl, rfl, ?_⟩
      intro r hr
      simp [ObjectNavTask.step, ObjectNavTask.judge, objectnavActions,
        List.get?] at hr
    | some v =>
      refine ⟨?_, ?_, ?_, ?_⟩
      · simp [ObjectNavTask.step, ObjectNavTask.judge, objectnavActions,
          List.get?]
      · simp [ObjectNavTask.step, ObjectNavTask.judge, objectnavActions,
          List.get?]
      · simp [ObjectNavTask.step, ObjectNavTask.judge, objectnavActions,
          List.get?]
      · intro r hr
        simp only [ObjectNavTask.step, ObjectNavTask.judge, objectnavActions,
          List.get?, Option.some.injEq] at hr
        cases h : pyTruthy spl <;>
          simp [h] at hr <;> subst hr <;> simp [h, pyAdd_val_zero]
  · intro s i fb h
    unfold PointNavTask.step
    cases hg : pointnavActions.get? i with
    | none => exact h
    | some a => cases a <;> first | rfl | exact h
  · intro s i fb h
    rcases fb with ⟨d, spl, els, eo, pb, pa⟩
    unfold ObjectNavTask.step
    cases hg : objectnavActions.get? i with
    | none => exact h
    | some a =>
      cases d with
      | none => cases a <;> first | rfl | exact h
      | some v => cases a <;> simp [ObjectNavTask.judge, h]

/-! ## Concrete fixtures used by witnesses and counterexamples -/

/-- A point-nav state freshly constructed with initial distance `5.0`. -/
def fixPNState : PointNavState := PointNavTask.init 100 (some (FVal.val 5))

/-- The same state after the `end` action has been recorded. -/
def fixPNEnded : PointNavState := { fixPNState with _took_end_action := true }

/-- Point-nav feedback: distance `4.0`, SPL `1.0`, action succeeded. -/
def fixFb : SimFeedback :=
  { distance_to_goal := some (FVal.val 4)
    spl := some (FVal.val 1)
    env_last_action_success := true
    episode_over := false }

/-- Point-nav feedback with an invalid (NaN) distance reading. -/
def fixFbNan : SimFeedback :=
  { distance_to_goal := some FVal.nan
    spl := some (FVal.val 0)
    env_last_action_success := true
    episode_over := false }

/-- An object-nav state freshly constructed with initial distance `5.0`. -/
def fixObjState : ObjectNavState := ObjectNavTask.init 100 (some (FVal.val 5))

/-- The same state after the `end` action has been recorded. -/
def fixObjEnded : ObjectNavState :=
  { fixObjState with _took_end_action := true }

/-- Object-nav feedback: distance `4.0`, SPL `1.0`, the agent moved. -/
def fixObjFb : ObjSimFeedback :=
  { distance_to_goal := some (FVal.val 4)
    spl := some (FVal.val 1)
    env_last_action_success := true
    episode_over := false
    pose_before := { x := 0, y := 0, z := 0, rot := 0 }
    pose_after := { x := 1, y := 0, z := 0, rot := 0 } }

/-- Object-nav feedback with an invalid (NaN) distance reading. -/
def fixObjFbNan : ObjSimFeedback :=
  { fixObjFb with distance_to_goal := some FVal.nan, spl := some (FVal.val 0) }

/-- Object-nav feedback with distance reading `7.0`. -/
def fixObjFb7 : ObjSimFeedback :=
  { fixObjFb with distance_to_goal := some (FVal.val 7), spl := some (FVal.val 0) }

/-- C1 witness: concrete instances discharging the hypotheses of
`habitat_c1_end_action` (the object-nav end step actually returns a result,
and `took_end_action` survives a subsequent `move_ahead` step in both
variants). -/
theorem habitat_c1_witness :
    ((ObjectNavTask.step fixObjState 3 fixObjFb).1).map RLStepResult.reward
      = some (if pyTruthy fixObjFb.spl then
          pyAdd (shapedReward fixObjState.last_geodesic_distance
            fixObjFb.distance_to_goal) (FVal.val 10)
        else shapedReward fixObjState.last_geodesic_distance
          fixObjFb.distance_to_goal) ∧
    ((PointNavTask.step fixPNEnded 0 fixFb).2)._took_end_action = true ∧
    ((ObjectNavTask.step fixObjEnded 0 fixObjFb).2)._took_end_action = true := by
  refine ⟨?_, ?_, ?_⟩
  · have h := (habitat_c1_end_action.2.1 fixObjState fixObjFb).2.2.2
    cases hs : (ObjectNavTask.step fixObjState 3 fixObjFb).1 with
    | none => exact absurd hs (by decide)
    | some r => simpa using h r hs
  · exact habitat_c1_end_action.2.2.1 fixPNEnded 0 fixFb rfl
  · exact habitat_c1_end_action.2.2.2 fixObjEnded 0 fixObjFb rfl

/-- C2 counterexample state: a fresh episode (initial distance `0`) in which
the `end` action has been issued with the goal in range. -/
def cex2Fb : SimFeedback :=
  { distance_to_goal := some (FVal.val 0)
    spl := some (FVal.val 1)
    env_last_action_success := true
    episode_over := true }

/-- The state reached after that `end` step. -/
def cex2State : PointNavState :=
  (PointNavTask.step (PointNavTask.init 100 (some (FVal.val 0))) 3 cex2Fb).2

/-- C2 counterexample: a `move_ahead` step (index 0, not `end`) taken after
`end` has been issued returns reward `9.99`, not the claimed
`-0.01 + (last_distance - new_distance) = -0.01`: the terminal bonus is added
again because `judge` tests the `took_end_action` flag, not the current
action. -/
theorem habitat_c2_cex :
    cex2State._took_end_action = true ∧
    ((PointNavTask.step cex2State 0 cex2Fb).1).map RLStepResult.reward
      = some (FVal.val (999/100)) ∧
    ¬ some (FVal.val (999/100))
        = some (shapedReward cex2State.last_geodesic_distance
            cex2Fb.distance_to_goal) := by
  refine ⟨rfl, ?_, ?_⟩
  · simp only [cex2State, cex2Fb, PointNavTask.step, PointNavTask.judge,
      PointNavTask.init, pointnavActions, shapedReward, guardDistance,
      invalidReading, pyTruthy, pyAdd, pySub, pyNeg, List.get?, Option.map]
    norm_num
  · simp only [cex2State, cex2Fb, PointNavTask.step, PointNavTask.judge,
      PointNavTask.init, pointnavActions, shapedReward, guardDistance,
      invalidReading, pyTruthy, pyAdd, pySub, pyNeg, List.get?, Option.map]
    norm_num

/-- C2 (amended): for every step whose action is not `end`, taken while
`took_end_action` is still false, the returned reward equals exactly
`-0.01 + (previous last_geodesic_distance - new guarded reading)`, with no
terminal bonus, in both variants (in the object-goal variant, whenever the
step returns a result at all). -/
theorem habitat_c2_no_end_reward :
    (∀ (s : PointNavState) (i : Nat) (a : HabAction) (fb : SimFeedback),
      pointnavActions.get? i = some a → ¬ a = HabAction.END →
      s._took_end_action = false →
      ((PointNavTask.step s i fb).1).map RLStepResult.reward
        = some (shapedReward s.last_geodesic_distance fb.distance_to_goal)) ∧
    (∀ (s : ObjectNavState) (i : Nat) (a : HabAction) (fb : ObjSimFeedback)
      (r : RLStepResult),
      objectnavActions.get? i = some a → ¬ a = HabAction.END →
      s._took_end_action = false →
      (ObjectNavTask.step s i fb).1 = some r →
      r.reward = shapedReward s.last_geodesic_distance fb.distance_to_goal) := by
  constructor
  · intro s i a fb hg ha hte
    unfold PointNavTask.step
    rw [hg]
    simp [PointNavTask.judge, ha, hte]
  · intro s i a fb r hg ha hte hr
    rcases fb with ⟨d, spl, els, eo, pb, pa⟩
    unfold ObjectNavTask.step at hr
    rw [hg] at hr
    cases d with
    | none => simp [ObjectNavTask.judge, ha] at hr
    | some v =>
      simp only [ObjectNavTask.judge, ha, hte, if_false, Bool.false_eq_true,
        Option.some.injEq] at hr
      subst hr
      simp

/-- C2 witness: concrete instances discharging the hypotheses of
`habitat_c2_no_end_reward` for both variants. -/
theorem habitat_c2_witness :
    ((PointNavTask.step fixPNState 0 fixFb).1).map RLStepResult.reward
      = some (shapedReward fixPNState.last_geodesic_distance
          fixFb.distance_to_goal) ∧
    (RLStepResult.mk (FVal.val (99/100)) false
        [(lastActionSuccessKey, some true)]).reward
      = shapedReward fixObjState.last_geodesic_distance
          fixObjFb.distance_to_goal := by
  constructor
  · exact habitat_c2_no_end_reward.1 fixPNState 0 HabAction.MOVE_AHEAD fixFb
      rfl (by decide) rfl
  · exact habitat_c2_no_end_reward.2 fixObjState 0 HabAction.MOVE_AHEAD
      fixObjFb _ rfl (by decide) rfl
      (by simp +decide only [fixObjState, fixObjFb, ObjectNavTask.step,
            ObjectNavTask.judge, ObjectNavTask.init, objectnavActions,
            countInvalid, shapedReward, guardDistance, invalidReading,
            pyTruthy, pyAdd, pySub, pyNeg, posLog, List.get?, isDone,
            Option.some.injEq]
          norm_num)

/-- The guard applied to a `val` fallback always yields a `val`. -/
lemma guardDistance_val (r : Reading) (q : ℚ) :
    ∃ p, guardDistance r (FVal.val q) = FVal.val p := by
  cases r with
  | none => exact ⟨q, rfl⟩
  | some v =>
    cases v with
    | nan => exact ⟨q, rfl⟩
    | pinf => exact ⟨q, rfl⟩
    | ninf => exact ⟨q, rfl⟩
    | val p => exact ⟨p, rfl⟩

/-- One point-nav step keeps `last_geodesic_distance` a finite value. -/
lemma pnStep_lgd_val (s : PointNavState) (i : Nat) (fb : SimFeedback) (q : ℚ)
    (h : s.last_geodesic_distance = FVal.val q) :
    ∃ p, ((PointNavTask.step s i fb).2).last_geodesic_distance
      = FVal.val p := by
  unfold PointNavTask.step
  cases hg : pointnavActions.get? i with
  | none => exact ⟨q, h⟩
  | some a =>
    cases a <;>
      · show ∃ p, guardDistance fb.distance_to_goal s.last_geodesic_distance
          = FVal.val p
        rw [h]
        exact guardDistance_val _ q

/-- One object-nav step keeps `last_geodesic_distance` a finite value. -/
lemma onStep_lgd_val (s : ObjectNavState) (i : Nat) (fb : ObjSimFeedback)
    (q : ℚ) (h : s.last_geodesic_distance = FVal.val q) :
    ∃ p, ((ObjectNavTask.step s i fb).2).last_geodesic_distance
      = FVal.val p := by
  rcases fb with ⟨d, spl, els, eo, pb, pa⟩
  unfold ObjectNavTask.step
  cases hg : objectnavActions.get? i with
  | none => exact ⟨q, h⟩
  | some a =>
    cases d with
    | none => cases a <;> exact ⟨q, h⟩
    | some v =>
      cases a <;>
        · simp only [ObjectNavTask.judge, countInvalid_lgd]
          show ∃ p, guardDistance (some v) s.last_geodesic_distance
            = FVal.val p
          rw [h]
          exact guardDistance_val _ q

/-- Running any point-nav trace keeps `last_geodesic_distance` finite. -/
lemma pnRun_lgd_val :
    ∀ (trace : List (Nat × SimFeedback)) (s : PointNavState),
      (∃ q, s.last_geodesic_distance = FVal.val q) →
      ∃ q, (PointNavTask.runSteps s trace).last_geodesic_distance
        = FVal.val q := by
  intro trace
  induction trace with
  | nil => exact fun s h => h
  | cons p rest ih =>
    intro s h
    obtain ⟨q, hq⟩ := h
    exact ih _ (pnStep_lgd_val s p.1 p.2 q hq)

/-- Running any object-nav trace keeps `last_geodesic_distance` finite. -/
lemma onRun_lgd_val :
    ∀ (trace : List (Nat × ObjSimFeedback)) (s : ObjectNavState),
      (∃ q, s.last_geodesic_distance = FVal.val q) →
      ∃ q, (ObjectNavTask.runSteps s trace).last_geodesic_distance
        = FVal.val q := by
  intro trace
  induction trace with
  | nil => exact fun s h => h
  | cons p rest ih =>
    intro s h
    obtain ⟨q, hq⟩ := h
    exact ih _ (onStep_lgd_val s p.1 p.2 q hq)

/-- C3: In both variants, a step whose raw `distance_to_goal` reading is
invalid (null, NaN, or an infinity) leaves the stored
`last_geodesic_distance` unchanged, and consequently, starting from
construction, `last_geodesic_distance` is always a finite value (never NaN
or infinite). -/
theorem habitat_c3_distance_guard :
    (∀ (s : PointNavState) (i : Nat) (fb : SimFeedback),
      invalidReading fb.distance_to_goal = true →
      ((PointNavTask.step s i fb).2).last_geodesic_distance
        = s.last_geodesic_distance) ∧
    (∀ (s : ObjectNavState) (i : Nat) (fb : ObjSimFeedback),
      invalidReading fb.distance_to_goal = true →
      ((ObjectNavTask.step s i fb).2).last_geodesic_distance
        = s.last_geodesic_distance) ∧
    (∀ (ms : Nat) (r0 : Reading) (trace : List (Nat × SimFeedback)),
      ∃ q, (PointNavTask.runSteps (PointNavTask.init ms r0)
        trace).last_geodesic_distance = FVal.val q) ∧
    (∀ (ms : Nat) (r0 : Reading) (trace : List (Nat × ObjSimFeedback)),
      ∃ q, (ObjectNavTask.runSteps (ObjectNavTask.init ms r0)
        trace).last_geodesic_distance = FVal.val q) := by
  refine ⟨?_, ?_, ?_, ?_⟩
  · intro s i fb h
    rcases fb with ⟨d, spl, els, eo⟩
    unfold PointNavTask.step
    cases hg : pointnavActions.get? i with
    | none => rfl
    | some a =>
      cases d with
      | none => cases a <;> rfl
      | some v =>
        cases v with
        | nan => cases a <;> rfl
        | pinf => cases a <;> rfl
        | ninf => cases a <;> rfl
        | val q => simp [invalidReading] at h
  · intro s i fb h
    rcases fb with ⟨d, spl, els, eo, pb, pa⟩
    unfold ObjectNavTask.step
    cases hg : objectnavActions.get? i with
    | none => rfl
    | some a =>
      cases d with
      | none => cases a <;> rfl
      | some v =>
        cases v with
        | nan =>
          cases a <;> simp [ObjectNavTask.judge, guardDistance, invalidReading]
        | pinf =>
          cases a <;> simp [ObjectNavTask.judge, guardDistance, invalidReading]
        | ninf =>
          cases a <;> simp [ObjectNavTask.judge, guardDistance, invalidReading]
        | val q => simp [invalidReading] at h
  · intro ms r0 trace
    exact pnRun_lgd_val trace _ (guardDistance_val r0 0)
  · intro ms r0 trace
    exact onRun_lgd_val trace _ (guardDistance_val r0 0)

/-- C3 witness: the guard hypotheses discharged at a concrete NaN reading in
both variants. -/
theorem habitat_c3_witness :
    ((PointNavTask.step fixPNState 0 fixFbNan).2).last_geodesic_distance
      = fixPNState.last_geodesic_distance ∧
    ((ObjectNavTask.step fixObjState 0 fixObjFbNan).2).last_geodesic_distance
      = fixObjState.last_geodesic_distance := by
  exact ⟨habitat_c3_distance_guard.1 fixPNState 0 fixFbNan rfl,
    habitat_c3_distance_guard.2.1 fixObjState 0 fixObjFbNan rfl⟩

/-- C4: In both variants, `metrics()` on an episode that is not done returns
an empty result and leaves the state (in particular the reward log)
untouched; on a finished episode it returns a summary whose `total_reward`
is the sum of the logged rewards, after which the reward log is empty. -/
theorem habitat_c4_metrics :
    (∀ (s : PointNavState) (fb : SimFeedback),
      (isDone s._took_end_action s.num_steps_taken s.max_steps
          fb.episode_over = false →
        PointNavTask.metrics s fb = (Option.none, s)) ∧
      (isDone s._took_end_action s.num_steps_taken s.max_steps
          fb.episode_over = true →
        ((PointNavTask.metrics s fb).1).map PointNavMetrics.total_reward
          = some (pySum s._rewards) ∧
        ((PointNavTask.metrics s fb).2)._rewards = [])) ∧
    (∀ (s : ObjectNavState) (fb : ObjSimFeedback),
      (isDone s._took_end_action s.num_steps_taken s.max_steps
          fb.episode_over = false →
        ObjectNavTask.metrics s fb = (Option.none, s)) ∧
      (isDone s._took_end_action s.num_steps_taken s.max_steps
          fb.episode_over = true →
        ((ObjectNavTask.metrics s fb).1).map ObjectNavMetrics.total_reward
          = some (pySum s._rewards) ∧
        ((ObjectNavTask.metrics s fb).2)._rewards = [])) := by
  constructor
  · intro s fb
    constructor
    · intro h
      simp [PointNavTask.metrics, h]
    · intro h
      simp [PointNavTask.metrics, h]
  · intro s fb
    constructor
    · intro h
      simp [ObjectNavTask.metrics, h]
    · intro h
      simp [ObjectNavTask.metrics, h]

/-- C4 witness: hypotheses discharged concretely — a fresh state is not done
and drains nothing; a state with `took_end_action` set is done, reports the
summed reward log, and is left with an empty log. -/
theorem habitat_c4_witness :
    PointNavTask.metrics fixPNState fixFb = (Option.none, fixPNState) ∧
    ((PointNavTask.metrics fixPNEnded fixFb).1).map
        PointNavMetrics.total_reward = some (pySum fixPNEnded._rewards) ∧
    ((PointNavTask.metrics fixPNEnded fixFb).2)._rewards = [] ∧
    ObjectNavTask.metrics fixObjState fixObjFb
      = (Option.none, fixObjState) ∧
    ((ObjectNavTask.metrics fixObjEnded fixObjFb).1).map
        ObjectNavMetrics.total_reward = some (pySum fixObjEnded._rewards) ∧
    ((ObjectNavTask.metrics fixObjEnded fixObjFb).2)._rewards = [] := by
  have h1 := (habitat_c4_metrics.1 fixPNState fixFb).1 (by decide)
  have h2 := (habitat_c4_metrics.1 fixPNEnded fixFb).2 (by decide)
  have h3 := (habitat_c4_metrics.2 fixObjState fixObjFb).1 (by decide)
  have h4 := (habitat_c4_metrics.2 fixObjEnded fixObjFb).2 (by decide)
  exact ⟨h1, h2.1, h2.2, h3, h4.1, h4.2⟩

lemma pyLe_refl (m : FVal) (h : ¬ m = FVal.nan) : pyLe m m = true := by
  cases m <;> simp_all [pyLe, pyLt]

lemma pyLe_trans (a b c : FVal) (h1 : pyLe a b = true)
    (h2 : pyLe b c = true) : pyLe a c = true := by
  cases a <;> cases b <;> cases c <;>
    simp_all [pyLe, pyLt] <;> linarith

lemma pymin_ne_nan (v m : FVal) (hv : ¬ v = FVal.nan)
    (hm : ¬ m = FVal.nan) : ¬ pymin v m = FVal.nan := by
  unfold pymin
  split <;> assumption

lemma pymin_pyLe_right (v m : FVal) (hv : ¬ v = FVal.nan)
    (hm : ¬ m = FVal.nan) : pyLe (pymin v m) m = true := by
  cases v <;> cases m <;>
    simp_all [pymin, pyLt, pyLe] <;>
    split_ifs <;> simp_all [pyLe, pyLt] <;> linarith

lemma pymin_pyLe_left (v m : FVal) (hv : ¬ v = FVal.nan)
    (hm : ¬ m = FVal.nan) : pyLe (pymin v m) v = true := by
  cases v <;> cases m <;>
    simp_all [pymin, pyLt, pyLe] <;>
    split_ifs <;> simp_all [pyLe, pyLt] <;> linarith

lemma pymin_eq_or (v m : FVal) : pymin v m = v ∨ pymin v m = m := by
  unfold pymin
  split
  · exact Or.inr rfl
  · exact Or.inl rfl

/-- A raw reading that Python's `min` can actually compare: a float that is
not NaN (an infinity is fine; `None` is not a float and raises). -/
def comparableReading : Reading → Bool
  | Option.none => false
  | some FVal.nan => false
  | some _ => true

lemma comparableReading_some (r : Reading)
    (h : comparableReading r = true) :
    ∃ v, r = some v ∧ ¬ v = FVal.nan := by
  cases r with
  | none => simp [comparableReading] at h
  | some v =>
    refine ⟨v, rfl, ?_⟩
    intro hv
    subst hv
    simp [comparableReading] at h

lemma objectnavActions_get (i : Nat) (h : i < 6) :
    ∃ a, objectnavActions.get? i = some a := by
  interval_cases i <;> exact ⟨_, rfl⟩

/-- A valid-index step with raw reading `some v` updates the running minimum
to `pymin v` of the previous minimum (Python `min(new, old)`). -/
lemma onStep_min (s : ObjectNavState) (i : Nat) (a : HabAction) (v : FVal)
    (spl : Reading) (els eo : Bool) (pb pa : Pose)
    (hg : objectnavActions.get? i = some a) :
    ((ObjectNavTask.step s i
        { distance_to_goal := some v, spl := spl
          env_last_action_success := els, episode_over := eo
          pose_before := pb, pose_after := pa }).2)._min_distance_to_goal
      = pymin v s._min_distance_to_goal := by
  unfold ObjectNavTask.step
  rw [hg]
  cases a <;> simp [ObjectNavTask.judge]

/-- Over any trace of valid action indices whose raw distance readings are
all comparable (no `None`, no NaN), the running minimum is an element of
{initial minimum} ∪ {raw readings} and is `pyLe` every element of that set:
it is genuinely the minimum of the raw readings seen so far together with
the initial value. -/
lemma onRun_min_spec :
    ∀ (trace : List (Nat × ObjSimFeedback)) (s : ObjectNavState),
      (∀ p ∈ trace, p.1 < 6 ∧ comparableReading p.2.distance_to_goal = true) →
      ¬ s._min_distance_to_goal = FVal.nan →
      ((ObjectNavTask.runSteps s trace)._min_distance_to_goal
          ∈ s._min_distance_to_goal
            :: trace.map (fun p => p.2.distance_to_goal.getD (FVal.val 0)) ∧
        ∀ r ∈ s._min_distance_to_goal
            :: trace.map (fun p => p.2.distance_to_goal.getD (FVal.val 0)),
          pyLe ((ObjectNavTask.runSteps s trace)._min_distance_to_goal) r
            = true) := by
  intro trace
  induction trace with
  | nil =>
    intro s hval hnn
    constructor
    · simp [ObjectNavTask.runSteps]
    · intro r hr
      simp only [ObjectNavTask.runSteps, List.map_nil, List.mem_singleton]
        at hr
      subst hr
      exact pyLe_refl _ hnn
  | cons p rest ih =>
    intro s hval hnn
    obtain ⟨hi, hcomp⟩ := hval p (List.mem_cons_self _ _)
    obtain ⟨v, hd, hvnan⟩ := comparableReading_some _ hcomp
    obtain ⟨i, fb⟩ := p
    rcases fb with ⟨d, spl, els, eo, pb, pa⟩
    dsimp only at hd hi
    subst hd
    obtain ⟨a, hg⟩ := objectnavActions_get i hi
    have hstep := onStep_min s i a v spl els eo pb pa hg
    have hnn' :
        ¬ ((ObjectNavTask.step s i
            { distance_to_goal := some v, spl := spl
              env_last_action_success := els, episode_over := eo
              pose_before := pb, pose_after := pa }).2)._min_distance_to_goal
          = FVal.nan := by
      rw [hstep]
      exact pymin_ne_nan v _ hvnan hnn
    have ihres := ih _ (fun q hq => hval q (List.mem_cons_of_mem _ hq)) hnn'
    have hrun : ObjectNavTask.runSteps s
        (((i : Nat),
          ({ distance_to_goal := some v, spl := spl
             env_last_action_success := els, episode_over := eo
             pose_before := pb, pose_after := pa } : ObjSimFeedback)) :: rest)
        = ObjectNavTask.runSteps
            (ObjectNavTask.step s i
              { distance_to_goal := some v, spl := spl
                env_last_action_success := els, episode_over := eo
                pose_before := pb, pose_after := pa }).2 rest := rfl
    constructor
    · rw [hrun]
      rcases List.mem_cons.mp ihres.1 with h1 | h1
      · rw [h1, hstep]
        rcases pymin_eq_or v s._min_distance_to_goal with h2 | h2 <;>
          rw [h2] <;> simp
      · simp only [List.map_cons, List.mem_cons, Option.getD_some]
        right; right
        exact h1
    · intro r hr
      rw [hrun]
      have hto : pyLe (ObjectNavTask.runSteps
          (ObjectNavTask.step s i
            { distance_to_goal := some v, spl := spl
              env_last_action_success := els, episode_over := eo
              pose_before := pb, pose_after := pa }).2
            rest)._min_distance_to_goal
          (pymin v s._min_distance_to_goal) = true := by
        have hh := ihres.2 _ (List.mem_cons_self _ _)
        rw [hstep] at hh
        exact hh
      simp only [List.map_cons, List.mem_cons, Option.getD_some] at hr
      rcases hr with hr | hr | hr
      · subst hr
        exact pyLe_trans _ _ _ hto
          (pymin_pyLe_right v s._min_distance_to_goal hvnan hnn)
      · rw [hr]
        exact pyLe_trans _ _ _ hto
          (pymin_pyLe_left v s._min_distance_to_goal hvnan hnn)
      · exact ihres.2 r (List.mem_cons_of_mem _ hr)

/-- Object-nav feedback used by the C5 counterexample trace. -/
def cex5Fb (r : Reading) : ObjSimFeedback :=
  { distance_to_goal := r
    spl := some (FVal.val 0)
    env_last_action_success := true
    episode_over := false
    pose_before := { x := 0, y := 0, z := 0, rot := 0 }
    pose_after := { x := 1, y := 0, z := 0, rot := 0 } }

/-- Fresh object-nav state with initial (guarded) distance `5.0`. -/
def cex5s0 : ObjectNavState := ObjectNavTask.init 100 (some (FVal.val 5))

/-- After a `move_ahead` step whose raw reading is NaN. -/
def cex5s1 : ObjectNavState :=
  (ObjectNavTask.step cex5s0 0 (cex5Fb (some FVal.nan))).2

/-- After a further `move_ahead` step with raw reading `7.0`. -/
def cex5s2 : ObjectNavState :=
  (ObjectNavTask.step cex5s1 0 (cex5Fb (some (FVal.val 7)))).2

/-- C5 counterexample: with a NaN raw reading the running minimum becomes
NaN (Python `min` keeps its first argument when every comparison is false)
and the next raw reading `7.0` then replaces it wholesale, so after the
readings 5.0 (initial), NaN, 7.0 the stored minimum is `7.0`: it is neither
monotonically non-increasing (7.0 is not below the earlier 5.0) nor the
minimum of the raw readings seen.  Moreover a null raw reading does not
enter a minimum at all: `judge` raises before producing a reward. -/
theorem habitat_c5_cex :
    cex5s0._min_distance_to_goal = FVal.val 5 ∧
    cex5s1._min_distance_to_goal = FVal.nan ∧
    cex5s2._min_distance_to_goal = FVal.val 7 ∧
    pyLe cex5s2._min_distance_to_goal cex5s1._min_distance_to_goal
      = false ∧
    pyLe cex5s2._min_distance_to_goal cex5s0._min_distance_to_goal
      = false ∧
    (ObjectNavTask.judge cex5s0 Option.none).1 = Option.none := by decide

/-- C5 (amended): in the object-goal variant, provided every raw reading is
an actual float that is not NaN (infinities allowed; a NaN reading corrupts
the minimum for one step as the counterexample shows, and a null reading
raises a `TypeError`), `min_distance_to_goal` is non-increasing at every
valid-index step, and after any such trace it equals the minimum of all raw
readings seen so far together with its initial guarded value. -/
theorem habitat_c5_min_distance :
    (∀ (s : ObjectNavState) (i : Nat) (a : HabAction) (v : FVal)
      (spl : Reading) (els eo : Bool) (pb pa : Pose),
      objectnavActions.get? i = some a →
      ¬ v = FVal.nan → ¬ s._min_distance_to_goal = FVal.nan →
      pyLe ((ObjectNavTask.step s i
          { distance_to_goal := some v, spl := spl
            env_last_action_success := els, episode_over := eo
            pose_before := pb, pose_after := pa }).2)._min_distance_to_goal
        s._min_distance_to_goal = true) ∧
    (∀ (ms : Nat) (r0 : Reading) (trace : List (Nat × ObjSimFeedback)),
      (∀ p ∈ trace, p.1 < 6 ∧ comparableReading p.2.distance_to_goal = true) →
      ((ObjectNavTask.runSteps (ObjectNavTask.init ms r0)
          trace)._min_distance_to_goal
          ∈ guardDistance r0 (FVal.val 0)
            :: trace.map (fun p => p.2.distance_to_goal.getD (FVal.val 0)) ∧
        ∀ r ∈ guardDistance r0 (FVal.val 0)
            :: trace.map (fun p => p.2.distance_to_goal.getD (FVal.val 0)),
          pyLe ((ObjectNavTask.runSteps (ObjectNavTask.init ms r0)
            trace)._min_distance_to_goal) r = true)) := by
  constructor
  · intro s i a v spl els eo pb pa hg hv hm
    rw [onStep_min s i a v spl els eo pb pa hg]
    exact pymin_pyLe_right v s._min_distance_to_goal hv hm
  · intro ms r0 trace hval
    have hnn : ¬ (ObjectNavTask.init ms r0)._min_distance_to_goal
        = FVal.nan := by
      obtain ⟨q, hq⟩ := guardDistance_val r0 0
      show ¬ guardDistance r0 (FVal.val 0) = FVal.nan
      rw [hq]
      simp
    exact onRun_min_spec trace (ObjectNavTask.init ms r0) hval hnn

/-- C5 witness: hypotheses discharged at a concrete step and a concrete
one-step trace. -/
theorem habitat_c5_witness :
    pyLe ((ObjectNavTask.step fixObjState 0 fixObjFb).2)._min_distance_to_goal
      fixObjState._min_distance_to_goal = true ∧
    (ObjectNavTask.runSteps (ObjectNavTask.init 100 (some (FVal.val 5)))
        [(0, fixObjFb)])._min_distance_to_goal
      ∈ [FVal.val 5, FVal.val 4] := by
  constructor
  · exact habitat_c5_min_distance.1 fixObjState 0 HabAction.MOVE_AHEAD
      (FVal.val 4) (some (FVal.val 1)) true false
      { x := 0, y := 0, z := 0, rot := 0 }
      { x := 1, y := 0, z := 0, rot := 0 }
      rfl (by decide) (by decide)
  · exact (habitat_c5_min_distance.2 100 (some (FVal.val 5))
      [(0, fixObjFb)] (by decide)).1

/-- Move-ahead feedback for the C6 scenario: the simulator reports the new
distance, SPL stays zero (goal not yet in range), the move succeeds. -/
def c6FbMove (d : ℚ) : SimFeedback :=
  { distance_to_goal := some (FVal.val d)
    spl := some (FVal.val 0)
    env_last_action_success := true
    episode_over := false }

/-- End-step feedback for the C6 scenario: distance unchanged at `2.5`, the
goal-in-range metric truthy, the simulator closing the episode. -/
def c6FbEnd : SimFeedback :=
  { distance_to_goal := some (FVal.val (5/2))
    spl := some (FVal.val 1)
    env_last_action_success := true
    episode_over := true }

/-- The state after the scenario trace: start at distance `5.0`, three
`move_ahead` steps reaching `4.0`, `3.0`, `2.5`, then `end`. -/
def c6Final : PointNavState :=
  PointNavTask.runSteps (PointNavTask.init 500 (some (FVal.val 5)))
    [(0, c6FbMove 4), (0, c6FbMove 3), (0, c6FbMove (5/2)), (3, c6FbEnd)]

/-- C6: on the scenario trace the four per-step rewards are exactly
`0.99, 0.99, 0.49, 9.99`, the episode succeeded, and the final metrics
report `total_reward = 12.46` with `success = true`. -/
theorem habitat_c6_scenario :
    c6Final._rewards
      = [FVal.val (99/100), FVal.val (99/100), FVal.val (49/100),
         FVal.val (999/100)] ∧
    c6Final._success = true ∧
    (PointNavTask.metrics c6Final c6FbEnd).1
      = some { success := true, ep_length := 4
               total_reward := FVal.val (1246/100), spl := FVal.val 1 } ∧
    ((PointNavTask.metrics c6Final c6FbEnd).2)._rewards = [] := by
  refine ⟨?_, rfl, ?_, rfl⟩
  · simp +decide only [c6Final, c6FbMove, c6FbEnd, PointNavTask.runSteps,
      PointNavTask.step, PointNavTask.judge, PointNavTask.init,
      pointnavActions, shapedReward, guardDistance, invalidReading, pyTruthy,
      pyAdd, pySub, pyNeg, List.get?]
    norm_num
  · simp +decide only [c6Final, c6FbMove, c6FbEnd, PointNavTask.runSteps,
      PointNavTask.step, PointNavTask.judge, PointNavTask.init,
      PointNavTask.metrics, pointnavActions, shapedReward, guardDistance,
      invalidReading, pyTruthy, pyAdd, pySub, pyNeg, pySum, isDone,
      List.get?, List.foldl]
    norm_num

/-- C7: in both variants, when the goal-in-range test (truthiness of the
SPL metric) holds, `query_expert` returns the index of `end` in the task's
action set with validity `true`, independently of the follower (it is never
consulted); otherwise it returns the follower's suggested action, valid
exactly when that action is non-null. -/
theorem habitat_c7_query_expert :
    ∀ (spl : Reading) (f : Option Nat),
      (pyTruthy spl = true →
        PointNavTask.query_expert spl f
          = (some (pointnavActions.indexOf HabAction.END), true) ∧
        ObjectNavTask.query_expert spl f
          = (some (objectnavActions.indexOf HabAction.END), true)) ∧
      (pyTruthy spl = false →
        PointNavTask.query_expert spl f = (f, f.isSome) ∧
        ObjectNavTask.query_expert spl f = (f, f.isSome)) := by
  intro spl f
  constructor <;> intro h <;>
    simp [PointNavTask.query_expert, ObjectNavTask.query_expert,
      PointNavTask.is_goal_in_range, h]

/-- C7 witness: both branches discharged at concrete SPL readings (in range
with `spl = 1.0`; not in range with `spl = 0.0`), with a concrete follower
suggestion. -/
theorem habitat_c7_witness :
    (PointNavTask.query_expert (some (FVal.val 1)) (some 2)
        = (some (pointnavActions.indexOf HabAction.END), true) ∧
      ObjectNavTask.query_expert (some (FVal.val 1)) (some 2)
        = (some (objectnavActions.indexOf HabAction.END), true)) ∧
    (PointNavTask.query_expert (some (FVal.val 0)) (some 2)
        = (some 2, true) ∧
      ObjectNavTask.query_expert (some (FVal.val 0)) Option.none
        = (Option.none, false)) := by
  constructor
  · exact (habitat_c7_query_expert (some (FVal.val 1)) (some 2)).1 (by decide)
  · exact ⟨((habitat_c7_query_expert (some (FVal.val 0)) (some 2)).2
        (by decide)).1,
      ((habitat_c7_query_expert (some (FVal.val 0)) Option.none).2
        (by decide)).2⟩

/-- C8 counterexample: on the concrete frame with distinguishable channels,
the point-nav variant's `render` with mode `depth` returns the **rgb**
frame, not the depth frame the claim promises, and an unknown mode raises
`AssertionError`, not `NotImplementedError`. -/
theorem habitat_c8_cex :
    PointNavTask.render { rgb := (0 : Nat), depth := 1 } "depth"
      = Except.ok 0 ∧
    ¬ PointNavTask.render { rgb := (0 : Nat), depth := 1 } "depth"
        = Except.ok (Frame.depth { rgb := (0 : Nat), depth := 1 }) ∧
    PointNavTask.render { rgb := (0 : Nat), depth := 1 } "flow"
      = Except.error RenderErr.assertionError := by
  refine ⟨rfl, ?_, rfl⟩
  intro h
  simp [PointNavTask.render, Frame.depth] at h

/-- C8 (amended): only the shared `HabitatTask.render` behaves as the claim
says (rgb frame, depth frame, `NotImplementedError` otherwise); the
point-nav and object-nav overrides assert the mode is `rgb` or `depth`
(raising `AssertionError` otherwise) and return the rgb frame for **both**
accepted modes. -/
theorem habitat_c8_render :
    ∀ (α : Type) (frame : Frame α) (mode : String),
      HabitatTask.render frame "rgb" = Except.ok frame.rgb ∧
      HabitatTask.render frame "depth" = Except.ok frame.depth ∧
      (¬ mode = "rgb" → ¬ mode = "depth" →
        HabitatTask.render frame mode
          = Except.error RenderErr.notImplementedError) ∧
      PointNavTask.render frame "rgb" = Except.ok frame.rgb ∧
      PointNavTask.render frame "depth" = Except.ok frame.rgb ∧
      ObjectNavTask.render frame "rgb" = Except.ok frame.rgb ∧
      ObjectNavTask.render frame "depth" = Except.ok frame.rgb ∧
      (¬ mode = "rgb" → ¬ mode = "depth" →
        PointNavTask.render frame mode
            = Except.error RenderErr.assertionError ∧
        ObjectNavTask.render frame mode
            = Except.error RenderErr.assertionError) := by
  intro α frame mode
  refine ⟨rfl, by simp [HabitatTask.render], ?_, rfl, rfl, rfl, rfl, ?_⟩
  · intro h1 h2
    simp [HabitatTask.render, h1, h2]
  · intro h1 h2
    constructor <;>
      simp [PointNavTask.render, ObjectNavTask.render, h1, h2]

/-- C8 witness: the error branches discharged at the concrete mode
`"flow"`. -/
theorem habitat_c8_witness :
    HabitatTask.render { rgb := (0 : Nat), depth := 1 } "flow"
      = Except.error RenderErr.notImplementedError ∧
    ObjectNavTask.render { rgb := (0 : Nat), depth := 1 } "flow"
      = Except.error RenderErr.assertionError := by
  have h := habitat_c8_render Nat { rgb := 0, depth := 1 } "flow"
  exact ⟨h.2.2.1 (by decide) (by decide),
    (h.2.2.2.2.2.2.2 (by decide) (by decide)).2⟩

/-- C9 counterexample: a concrete step in each variant whose returned `info`
has no `"action"` key at all — the variants' `_step` overrides never insert
the action index (only the dead `HabitatTask._step` would). -/
theorem habitat_c9_cex :
    ((PointNavTask.step fixPNState 0 fixFb).1).map
        (fun r => List.lookup actionKey r.info) = some Option.none ∧
    ((ObjectNavTask.step fixObjState 0 fixObjFb).1).map
        (fun r => List.lookup actionKey r.info) = some Option.none := by
  decide

/-- C9 (amended): in both variants, whenever a step returns a result, its
`info` mapping is exactly the one-entry association list carrying
`last_action_success`; the action index is not included. -/
theorem habitat_c9_info :
    (∀ (s : PointNavState) (i : Nat) (fb : SimFeedback) (r : RLStepResult),
      (PointNavTask.step s i fb).1 = some r →
      r.info = [(lastActionSuccessKey,
        ((PointNavTask.step s i fb).2).last_action_success)]) ∧
    (∀ (s : ObjectNavState) (i : Nat) (fb : ObjSimFeedback)
      (r : RLStepResult),
      (ObjectNavTask.step s i fb).1 = some r →
      r.info = [(lastActionSuccessKey,
        ((ObjectNavTask.step s i fb).2).last_action_success)]) := by
  constructor
  · intro s i fb r hr
    revert hr
    unfold PointNavTask.step
    cases hg : pointnavActions.get? i with
    | none =>
      intro hr
      exact absurd hr (by simp)
    | some a =>
      intro hr
      simp only [Option.some.injEq] at hr
      subst hr
      rfl
  · intro s i fb r hr
    revert hr
    rcases fb with ⟨d, spl, els, eo, pb, pa⟩
    unfold ObjectNavTask.step
    cases hg : objectnavActions.get? i with
    | none =>
      intro hr
      exact absurd hr (by simp)
    | some a =>
      cases d with
      | none =>
        intro hr
        simp [ObjectNavTask.judge] at hr
      | some v =>
        intro hr
        simp only [ObjectNavTask.judge, Option.some.injEq] at hr
        subst hr
        cases a <;> rfl

/-- C9 witness: the implication discharged at a concrete step of each
variant. -/
theorem habitat_c9_witness :
    (RLStepResult.mk (FVal.val (99/100)) false
        [(lastActionSuccessKey, some true)]).info
      = [(lastActionSuccessKey,
          (PointNavTask.step fixPNState 0 fixFb).2.last_action_success)] ∧
    (RLStepResult.mk (FVal.val (99/100)) false
        [(lastActionSuccessKey, some true)]).info
      = [(lastActionSuccessKey,
          (ObjectNavTask.step fixObjState 0 fixObjFb).2.last_action_success)]
    := by
  constructor
  · exact habitat_c9_info.1 fixPNState 0 fixFb
      (RLStepResult.mk (FVal.val (99/100)) false
        [(lastActionSuccessKey, some true)])
      (by simp +decide only [fixPNState, fixFb, PointNavTask.step,
            PointNavTask.judge, PointNavTask.init, pointnavActions,
            shapedReward, guardDistance, invalidReading, pyTruthy, pyAdd,
            pySub, pyNeg, List.get?, isDone, Option.some.injEq]
          norm_num)
  · exact habitat_c9_info.2 fixObjState 0 fixObjFb
      (RLStepResult.mk (FVal.val (99/100)) false
        [(lastActionSuccessKey, some true)])
      (by simp +decide only [fixObjState, fixObjFb, ObjectNavTask.step,
            ObjectNavTask.judge, ObjectNavTask.init, objectnavActions,
            countInvalid, shapedReward, guardDistance, invalidReading,
            pyTruthy, pyAdd, pySub, pyNeg, posLog, List.get?, isDone,
            Option.some.injEq]
          norm_num)

/-- A 12-character scene path whose filename stem `a` is shorter than 11
characters. -/
def cexSceneId : List Char := "scenes/a.glb".data

/-- The episode id used in the C10 counterexample. -/
def cexEpisodeNum : List Char := "1".data

/-- C10 counterexample: `scene_id[-15:-4]` is not the filename stem — on the
12-character path `scenes/a.glb` the slice clamps to the start of the string
and keeps the directory part, giving `scenes/a_1` where the spec's
stem-truncation description gives `a_1`. -/
theorem habitat_c10_cex :
    HabitatTask.episodeId cexSceneId cexEpisodeNum = "scenes/a_1".data ∧
    specEpisodeId cexSceneId cexEpisodeNum = "a_1".data ∧
    ¬ HabitatTask.episodeId cexSceneId cexEpisodeNum
        = specEpisodeId cexSceneId cexEpisodeNum := by decide

/-- C10 (amended): the persisted identifier is characters `-15` to `-5` of
the scene path joined by an underscore with the episode id; this equals the
filename stem exactly when the stem has 11 characters and the extension 4
(as for the mp3d-style `.glb` scene paths the slice was written for). -/
theorem habitat_c10_episode_id :
    ∀ (p stem ext ep : List Char), stem.length = 11 → ext.length = 4 →
      HabitatTask.episodeId (p ++ stem ++ ext) ep
        = stem ++ [Char.ofNat 95] ++ ep := by
  intro p stem ext ep h1 h2
  have hl : (p ++ stem ++ ext).length = p.length + 15 := by
    simp [h1, h2]
  have key : pySliceNeg (p ++ stem ++ ext) 15 4 = stem := by
    unfold pySliceNeg
    rw [hl]
    have hmin1 : min (p.length + 15) 15 = 15 := by omega
    have hmin2 : min (p.length + 15) 4 = 4 := by omega
    rw [hmin1, hmin2]
    have e1 : p.length + 15 - 15 = p.length := by omega
    rw [e1]
    have e2 : p.length + 15 - 4 - p.length = 11 := by omega
    rw [e2]
    rw [List.append_assoc, List.drop_left, List.take_left' h1]
  unfold HabitatTask.episodeId
  rw [key]

/-- The pieces of an mp3d-style scene path with an 11-character stem. -/
def wPrefix : List Char := "data/x/".data

/-- An 11-character filename stem. -/
def wStem : List Char := "ABCDEFGHIJK".data

/-- The 4-character `.glb` extension. -/
def wExt : List Char := ".glb".data

/-- The episode id used by the C10 witness. -/
def wEp : List Char := "7".data

/-- C10 witness: the length hypotheses discharged on a concrete mp3d-style
path. -/
theorem habitat_c10_witness :
    HabitatTask.episodeId (wPrefix ++ wStem ++ wExt) wEp
      = wStem ++ [Char.ofNat 95] ++ wEp :=
  habitat_c10_episode_id wPrefix wStem wExt wEp (by decide) (by decide)
